import Mathlib

/-!
Verification of the noname parser front-end (`src/parser/types.rs`).

The development shallowly embeds the declaration/type/statement parser of the
repository.  Pure data types and functions are translated directly from the
Rust source; the handful of collaborators that live outside the covered file
(`Span` from `constants.rs`, the token cursor from the lexer, the expression
sub-grammar, the `Field` element type, the `is_type` casing predicate) are
modelled from the specification and marked as such in their doc comments.

Parsers are written in explicit state-passing style over a token list; loops
of the source become fuel-indexed structural recursion (the fuel is an
embedding artifact, checked only at the recursion sites, so that every
early-exit path of a loop is fuel-independent).  Rust `panic!` is modelled by
a dedicated `fatal` outcome, distinct from recoverable `Result::Err` values.
-/

set_option maxHeartbeats 1000000

namespace Noname

/-- Modelled from the spec: `Span` lives in `constants.rs`, outside the
covered source.  It is a source offset plus a length (the Rust code accesses
the two fields positionally as `span.0` and `span.1`). -/
structure Span where
  pos : Nat
  len : Nat
deriving DecidableEq, Repr

/-- Modelled from the spec: spans are merged by taking the union of the two
ranges. -/
def Span.merge_with (a b : Span) : Span :=
  let lo := min a.pos b.pos
  let hi := max (a.pos + a.len) (b.pos + b.len)
  ⟨lo, hi - lo⟩

/-- Any kind of text that can represent a type, a variable, a function name,
etc. (`Ident` in `src/parser/types.rs`; derived `PartialEq` compares both the
text and the span). -/
structure Ident where
  value : String
  span : Span
deriving DecidableEq, Repr

/-- `TyKind` from `src/parser/types.rs`: the type representation.  `Array`
sizes are `u32` in the source; parsing enforces the `2^32` bound. -/
inductive TyKind where
  | Field
  | Custom (module : Option Ident) (name : Ident)
  | BigInt
  | Array (elem : TyKind) (size : Nat)
  | Bool
deriving DecidableEq, Repr

/-- Alias for `Bool`, needed because inside declarations of the `TyKind`
namespace the bare name `Bool` resolves to the constructor `TyKind.Bool`. -/
abbrev Boolean := Bool

/-- `TyKind::match_expected`: directional "is `self` assignable where
`expected` is required".  The Rust `match` arms are translated in order; the
final arm is the `(x, y) if x == y` / `_` pair. -/
def TyKind.match_expected : TyKind → TyKind → Boolean
  | .BigInt, .Field => true
  | .Array lhs lhs_size, .Array rhs rhs_size =>
      decide (lhs_size = rhs_size) && lhs.match_expected rhs
  | .Custom module name, .Custom expected_module expected_name =>
      (match module, expected_module with
       | some a, some b => decide (a = b)
       | _, _ => true) && decide (name.value = expected_name.value)
  | x, y => decide (x = y)

/-- `TyKind::same_as`: the "are these the same type" relation.  Note that the
array arm recurses into `match_expected`, exactly as the source does. -/
def TyKind.same_as : TyKind → TyKind → Boolean
  | .BigInt, .Field => true
  | .Field, .BigInt => true
  | .Array lhs lhs_size, .Array rhs rhs_size =>
      decide (lhs_size = rhs_size) && lhs.match_expected rhs
  | .Custom module name, .Custom expected_module expected_name =>
      (match module, expected_module with
       | some a, some b => decide (a = b)
       | _, _ => true) && decide (name.value = expected_name.value)
  | x, y => decide (x = y)

/-- Modelled from the spec: the keyword tokens of the external lexer that the
covered parsers dispatch on (plus the boolean literal keywords used by the
modelled expression sub-grammar). -/
inductive Keyword where
  | Pub
  | Const
  | Let
  | Mut
  | For
  | In
  | If
  | Return
  | True
  | False
deriving DecidableEq, Repr

/-- Modelled from the spec: the token kinds of the external lexer that the
covered parsers match on (keyword, identifier, literal, punctuation,
comment). -/
inductive TokenKind where
  | Keyword (k : Keyword)
  | Identifier (s : String)
  | BigInt (s : String)
  | Comment (s : String)
  | Comma
  | Colon
  | DoubleColon
  | SemiColon
  | LeftParen
  | RightParen
  | LeftBracket
  | RightBracket
  | LeftCurlyBracket
  | RightCurlyBracket
  | Equal
  | Dot
  | DoubleDot
  | RightArrow
deriving DecidableEq, Repr

/-- A token: a kind plus a span (from the external lexer boundary). -/
structure Token where
  kind : TokenKind
  span : Span
deriving DecidableEq, Repr

/-- The mutable state threaded through the source parsers: the token cursor
(`Tokens`) and the part of `ParserCtx` the covered code reads —
`ctx.last_span()`, which every consuming cursor operation updates. -/
structure State where
  lastSpan : Span
  toks : List Token
deriving DecidableEq, Repr

/-- The error kinds (`ErrorKind` in `error.rs`, external) that the covered
parsers construct, plus the generic kinds the modelled cursor/expression
collaborators report. -/
inductive ErrorKind where
  | MissingToken
  | ExpectedToken (k : TokenKind)
  | InvalidEndOfLine
  | MissingType
  | InvalidType
  | InvalidToken
  | InvalidArraySize
  | InvalidFnCall (msg : String)
  | InvalidFunctionSignature (msg : String)
  | SelfHasAttribute
  | InvalidStatement
  | InvalidRangeSize
  | InvalidPath (msg : String)
  | InvalidField (s : String)
  | InvalidConstType
  | ReservedType (s : String)
  | InvalidExpression
deriving DecidableEq, Repr

/-- Outcome of running a parser: a value plus the updated state, a
recoverable error (`Err(ctx.error(kind, span))` in the source), a Rust
`panic!` (process abort), or exhaustion of the embedding's fuel (an artifact
of modelling the source's `loop`s, never produced by any early-exit path). -/
inductive PResult (α : Type) where
  | ok (val : α) (st : State)
  | err (kind : ErrorKind) (span : Span)
  | fatal (msg : String)
  | outOfFuel
deriving DecidableEq, Repr

/-- Sequencing: propagate errors, panics and fuel exhaustion (the `?`
operator of the source, extended with panic propagation). -/
def PResult.bind {α β : Type} (r : PResult α) (f : α → State → PResult β) : PResult β :=
  match r with
  | .ok a st => f a st
  | .err k sp => .err k sp
  | .fatal m => .fatal m
  | .outOfFuel => .outOfFuel

/-- Whether a parse succeeded. -/
def PResult.isOk {α : Type} : PResult α → Boolean
  | .ok _ _ => true
  | _ => false

/-- Modelled from the spec: peek-without-consuming. -/
def State.peek (st : State) : Option Token :=
  st.toks.head?

/-- Modelled from the spec: consume-and-return-current; it also records the
consumed token's span as the context's last span. -/
def State.bump (st : State) : Option (Token × State) :=
  match st.toks with
  | [] => none
  | t :: rest => some (t, ⟨t.span, rest⟩)

/-- `tokens.bump(ctx);` with the returned token discarded. -/
def State.bump_ignore (st : State) : State :=
  match st.toks with
  | [] => st
  | t :: rest => ⟨t.span, rest⟩

/-- Modelled from the spec: consume-or-error-if-kind-mismatches. -/
def State.bump_expected (st : State) (k : TokenKind) : PResult Token :=
  match st.bump with
  | none => .err (.ExpectedToken k) st.lastSpan
  | some (t, st1) => if t.kind = k then .ok t st1 else .err (.ExpectedToken k) t.span

/-- Modelled from the spec: consume-or-error-with-custom-error-kind. -/
def State.bump_err (st : State) (k : ErrorKind) : PResult Token :=
  match st.bump with
  | none => .err k st.lastSpan
  | some (t, st1) => .ok t st1

/-- Modelled from the spec: consume-identifier-or-error. -/
def State.bump_ident (st : State) (k : ErrorKind) : PResult Ident :=
  match st.bump with
  | none => .err k st.lastSpan
  | some (t, st1) =>
    match t.kind with
    | .Identifier name => .ok ⟨name, t.span⟩ st1
    | _ => .err k t.span

/-- Modelled from the spec: the `is_type` casing predicate from
`crate::syntax` — a name beginning with an uppercase letter, with all other
characters alphanumeric or underscore, is classified as a type name. -/
def is_type (s : String) : Boolean :=
  match s.data with
  | [] => false
  | c :: _ => c.isAlpha && c.isUpper && s.data.all (fun x => x.isAlphanum || x = '_')

/-- Modelled from Rust std semantics: read a string as a plain decimal
number (the digit strings the lexer produces for `TokenKind::BigInt`);
anything containing a non-digit, or empty, fails. -/
def decimalNat (s : String) : Option Nat :=
  match s.data with
  | [] => none
  | cs =>
    if cs.all (fun c => c.isDigit) then
      some (cs.foldl (fun acc c => acc * 10 + (c.toNat - 48)) 0)
    else none

/-- Modelled from Rust std semantics as used by the source
(`s.parse::<u32>()`), restricted to the plain digit strings the lexer
produces: a decimal number below `2^32`. -/
def parseU32 (s : String) : Option Nat :=
  match decimalNat s with
  | some n => if n < 2 ^ 32 then some n else none
  | none => none

/-- Modelled from the spec: `Field` is the external field-element type of the
proof system (`crate::constants::Field`); only its construction from decimal
literals matters to the covered code. -/
abbrev Field := Nat

/-- Modelled from the spec: parsing a literal string as a field element
(`s.parse()` with `Field: FromStr`); a string that is not a decimal number
fails. -/
def fieldFromStr (s : String) : Option Field :=
  decimalNat s

mutual
/-- Modelled from the spec: the shapes of expression nodes the covered
declaration parsers construct or inspect — literal integers
(`ExprKind::BigInt`), boolean literals, variables, and the struct-literal
expression (`ExprKind::CustomTypeDeclaration`) built by
`parse_type_declaration`. -/
inductive ExprKind where
  | BigInt (s : String)
  | Bool (b : Boolean)
  | Variable (name : String)
  | CustomTypeDeclaration (struct_name : Ident) (fields : List (Ident × Expr))

/-- An expression node: a kind plus a span. -/
inductive Expr where
  | mk (kind : ExprKind) (span : Span)
end

/-- The kind of an expression node. -/
def Expr.kind : Expr → ExprKind
  | .mk k _ => k

/-- The span of an expression node. -/
def Expr.span : Expr → Span
  | .mk _ sp => sp

/-- Modelled from the spec: `Expr::parse` is an external collaborator (the
expression grammar is out of the covered core, which relies on it only for
"function-call argument lists, literal forms").  Modelled minimally as
single-token expressions: integer literals, boolean literals and variables;
anything else is a recoverable error. -/
def Expr.parse (st : State) : PResult Expr :=
  match st.bump with
  | some (⟨.BigInt s, sp⟩, st1) => .ok ⟨.BigInt s, sp⟩ st1
  | some (⟨.Keyword .True, sp⟩, st1) => .ok ⟨.Bool true, sp⟩ st1
  | some (⟨.Keyword .False, sp⟩, st1) => .ok ⟨.Bool false, sp⟩ st1
  | some (⟨.Identifier name, sp⟩, st1) => .ok ⟨.Variable name, sp⟩ st1
  | some (t, _) => .err .InvalidExpression t.span
  | none => .err .InvalidExpression st.lastSpan

/-- `Ty` from the source: a type occurrence, a kind plus a span. -/
structure Ty where
  kind : TyKind
  span : Span
deriving DecidableEq, Repr

/-- `Ty::reserved_types`: resolve reserved type names; a reserved name with a
module qualifier is a `panic!` (modelled as `Except.error`). -/
def Ty.reserved_types (module : Option Ident) (name : Ident) : Except String TyKind :=
  if (name.value = "Field" ∨ name.value = "Bool") ∧ module.isSome then
    .error "reserved types cannot be in a module (TODO: better error)"
  else if name.value = "Field" then .ok .Field
  else if name.value = "Bool" then .ok .Bool
  else .ok (.Custom module name)

/-- `Ty::parse`, fuel-indexed (the fuel is consumed only by the recursive
array case; the whole function is written with explicit result matches, the
desugaring of the source's `?` operator, so that it evaluates by kernel
reduction).  Note the identifier case: the merged span of a `module::Type`
path is computed in the source but bound to `_span` and discarded — the
returned `Ty` carries `token.span`, the span of the first token only. -/
def Ty.parseF : Nat → State → PResult Ty
  | fuel, st =>
    match st.bump_err .MissingType with
    | .err k sp => .err k sp
    | .fatal m => .fatal m
    | .outOfFuel => .outOfFuel
    | .ok token st1 =>
      match token.kind with
      | .Identifier ty_name =>
        let maybe_module : Ident := ⟨ty_name, token.span⟩
        let mn : PResult (Option Ident × Ident) :=
          if is_type ty_name then
            .ok (none, maybe_module) st1
          else
            match st1.bump_expected .DoubleColon with
            | .err k sp => .err k sp
            | .fatal m => .fatal m
            | .outOfFuel => .outOfFuel
            | .ok _ st2 =>
              match st2.bump with
              | some (t, st3) =>
                match t.kind with
                | .Identifier name => .ok (some maybe_module, ⟨name, t.span⟩) st3
                | _ => .err .MissingType st3.lastSpan
              | none => .err .MissingType st2.lastSpan
        match mn with
        | .err k sp => .err k sp
        | .fatal m => .fatal m
        | .outOfFuel => .outOfFuel
        | .ok (module, name) st4 =>
          match Ty.reserved_types module name with
          | .error msg => .fatal msg
          | .ok ty_kind => .ok ⟨ty_kind, token.span⟩ st4
      | .LeftBracket =>
        let span : Span := ⟨token.span.pos, 0⟩
        match fuel with
        | 0 => .outOfFuel
        | fuel + 1 =>
          match Ty.parseF fuel st1 with
          | .err k sp => .err k sp
          | .fatal m => .fatal m
          | .outOfFuel => .outOfFuel
          | .ok ty st2 =>
            match st2.bump_expected .SemiColon with
            | .err k sp => .err k sp
            | .fatal m => .fatal m
            | .outOfFuel => .outOfFuel
            | .ok _ st3 =>
              match st3.bump_err .InvalidToken with
              | .err k sp => .err k sp
              | .fatal m => .fatal m
              | .outOfFuel => .outOfFuel
              | .ok siz st4 =>
                match siz.kind with
                | .BigInt s =>
                  match parseU32 s with
                  | some n =>
                    match st4.bump_expected .RightBracket with
                    | .err k sp => .err k sp
                    | .fatal m => .fatal m
                    | .outOfFuel => .outOfFuel
                    | .ok right_paren st5 =>
                      .ok ⟨.Array ty.kind n, span.merge_with right_paren.span⟩ st5
                  | none => .err .InvalidArraySize siz.span
                | _ => .err (.ExpectedToken (.BigInt "")) siz.span
      | _ => .err .InvalidType token.span

/-- `Ty::parse` entry point: the fuel is the remaining token count, which
bounds the array-nesting depth. -/
def Ty.parse (st : State) : PResult Ty :=
  Ty.parseF st.toks.length st

/-- `Ident::parse`: consume exactly one identifier token. -/
def Ident.parse (st : State) : PResult Ident :=
  (st.bump_err .MissingToken).bind fun token st1 =>
  match token.kind with
  | .Identifier ident => .ok ⟨ident, token.span⟩ st1
  | _ => .err (.ExpectedToken (.Identifier "")) token.span

/-- `AttributeKind` from the source: `pub` or `const` argument attributes. -/
inductive AttributeKind where
  | Pub
  | Const
deriving DecidableEq, Repr

/-- `Attribute` from the source: an attribute kind plus its span. -/
structure Attribute where
  kind : AttributeKind
  span : Span
deriving DecidableEq, Repr

/-- `FnArg` from the source: one function parameter (`attr` models the
source field `attribute`, whose name is a Lean keyword). -/
structure FnArg where
  name : Ident
  typ : Ty
  attr : Option Attribute
  span : Span
deriving DecidableEq, Repr

/-- `FnNameDef` from the source: the name of a function, with the enclosing
type name when the `Type.method` form was used. -/
structure FnNameDef where
  self_name : Option Ident
  name : Ident
  span : Span
deriving DecidableEq, Repr

/-- `FnNameDef::parse`: one identifier; a type-cased identifier must be
followed by `.` and the method name. -/
def FnNameDef.parse (st : State) : PResult FnNameDef :=
  match st.bump_ident (.InvalidFunctionSignature "expected function name") with
  | .err k sp => .err k sp
  | .fatal m => .fatal m
  | .outOfFuel => .outOfFuel
  | .ok maybe_self_name st1 =>
    let span := maybe_self_name.span
    if is_type maybe_self_name.value then
      match st1.bump_expected .Dot with
      | .err k sp => .err k sp
      | .fatal m => .fatal m
      | .outOfFuel => .outOfFuel
      | .ok _ st2 =>
        match st2.bump_ident (.InvalidFunctionSignature "expected function name") with
        | .err k sp => .err k sp
        | .fatal m => .fatal m
        | .outOfFuel => .outOfFuel
        | .ok name st3 =>
          .ok ⟨some maybe_self_name, name, span.merge_with name.span⟩ st3
    else
      .ok ⟨none, maybe_self_name, span⟩ st1

/-- The `loop` of `Function::parse_args`, one recursive call per iteration.
`args` is the accumulator; the `self_name` parameter is the enclosing method
context threaded in from the function's name definition. -/
def Function.parse_args_loop (self_name : Option Ident) :
    Nat → State → List FnArg → PResult (List FnArg)
  | fuel, st, args =>
    match st.bump_err (.InvalidFunctionSignature "expected function arguments") with
    | .err k sp => .err k sp
    | .fatal m => .fatal m
    | .outOfFuel => .outOfFuel
    | .ok token st1 =>
      match token.kind with
      | .RightParen => .ok args st1
      | _ =>
        -- (attribute, arg_name), from the lead token of the argument
        match ((match token.kind with
                | .Keyword .Pub =>
                  (Ident.parse st1).bind fun arg_name st2 =>
                    .ok (some (Attribute.mk .Pub token.span), arg_name) st2
                | .Keyword .Const =>
                  (Ident.parse st1).bind fun arg_name st2 =>
                    .ok (some (Attribute.mk .Const token.span), arg_name) st2
                | .Identifier name =>
                  .ok (none, Ident.mk name token.span) st1
                | _ =>
                  .err (.InvalidFunctionSignature "expected identifier") token.span) :
               PResult (Option Attribute × Ident)) with
        | .err k sp => .err k sp
        | .fatal m => .fatal m
        | .outOfFuel => .outOfFuel
        | .ok (attr, arg_name) st2 =>
          -- self takes no value: no type annotation is consumed
          match ((if arg_name.value = "self" then
                    match self_name with
                    | none =>
                      .err (.InvalidFunctionSignature
                        "the `self` argument is only allowed in struct methods") arg_name.span
                    | some sn =>
                      if args.isEmpty then
                        .ok (Ty.mk (.Custom none ⟨sn.value, sn.span⟩) sn.span) st2
                      else
                        .err (.InvalidFunctionSignature "`self` must be the first argument")
                          arg_name.span
                  else
                    match st2.bump_expected .Colon with
                    | .err k sp => .err k sp
                    | .fatal m => .fatal m
                    | .outOfFuel => .outOfFuel
                    | .ok _ st3 => Ty.parse st3) :
                 PResult Ty) with
          | .err k sp => .err k sp
          | .fatal m => .fatal m
          | .outOfFuel => .outOfFuel
          | .ok arg_typ st3 =>
            match st3.bump_err
                (.InvalidFunctionSignature "expected end of function or other argument") with
            | .err k sp => .err k sp
            | .fatal m => .fatal m
            | .outOfFuel => .outOfFuel
            | .ok separator st4 =>
              -- span of the argument; `self` with an attribute is rejected here
              match ((match attr with
                      | some a =>
                        if arg_name.value = "self" then
                          .err .SelfHasAttribute arg_name.span
                        else
                          .ok (a.span.merge_with arg_typ.span) st4
                      | none =>
                        if arg_name.value = "self" then
                          .ok arg_name.span st4
                        else
                          .ok (arg_name.span.merge_with arg_typ.span) st4) :
                     PResult Span) with
              | .err k sp => .err k sp
              | .fatal m => .fatal m
              | .outOfFuel => .outOfFuel
              | .ok span st5 =>
                let arg : FnArg := ⟨arg_name, arg_typ, attr, span⟩
                let args := args ++ [arg]
                match separator.kind with
                | .Comma =>
                  match fuel with
                  | 0 => .outOfFuel
                  | fuel + 1 => Function.parse_args_loop self_name fuel st5 args
                | .RightParen => .ok args st5
                | _ =>
                  .err (.InvalidFunctionSignature
                    "expected end of function or other argument") separator.span

/-- `Function::parse_args`: consume `(`, then run the argument loop. -/
def Function.parse_args (st : State) (self_name : Option Ident) : PResult (List FnArg) :=
  match st.bump_expected .LeftParen with
  | .err k sp => .err k sp
  | .fatal m => .fatal m
  | .outOfFuel => .outOfFuel
  | .ok _ st1 => Function.parse_args_loop self_name (st1.toks.length + 1) st1 []

/-- `Range` from the source: for-loop bounds, two `u32` literals known at
parse time (`stop` models the source field `end`, whose name is a Lean
keyword). -/
structure Range where
  start : Nat
  stop : Nat
  span : Span
deriving DecidableEq, Repr

mutual
/-- `StmtKind` from the source: assignment, expression statement, return,
comment, bounded for-loop. -/
inductive StmtKind where
  | Assign (mutable : Bool) (lhs : Ident) (rhs : Expr)
  | Expr (e : Expr)
  | Return (e : Expr)
  | Comment (c : String)
  | ForLoop (var : Ident) (range : Range) (body : List Stmt)

/-- `Stmt` from the source: a statement kind plus a span. -/
inductive Stmt where
  | mk (kind : StmtKind) (span : Span)
end

/-- The kind of a statement. -/
def Stmt.kind : Stmt → StmtKind
  | .mk k _ => k

/-- The span of a statement. -/
def Stmt.span : Stmt → Span
  | .mk _ sp => sp

/-- The statement-list loop closed by `}`, shared (with identical shape in
the source) by for-loop bodies and `Function::parse_fn_body`: peek for the
closing brace, otherwise parse one statement with `pstmt` and push it. -/
def parse_block (pstmt : State → PResult Stmt) :
    Nat → State → List Stmt → PResult (List Stmt)
  | fuel, st, body =>
    match st.toks with
    | ⟨.RightCurlyBracket, sp⟩ :: rest => .ok body ⟨sp, rest⟩
    | _ =>
      match pstmt st with
      | .err k sp => .err k sp
      | .fatal m => .fatal m
      | .outOfFuel => .outOfFuel
      | .ok statement st1 =>
        match fuel with
        | 0 => .outOfFuel
        | fuel + 1 => parse_block pstmt fuel st1 (body ++ [statement])

/-- `Stmt::parse`, fuel-indexed: one token of lookahead dispatches the
production.  The `if` arm is the source's unconditional `panic!`. -/
def Stmt.parseF : Nat → State → PResult Stmt
  | fuel, st =>
    match st.peek with
    | none => .err .InvalidStatement st.lastSpan
    | some token =>
      match token.kind with
      -- assignment
      | .Keyword .Let =>
        let span := token.span
        let st1 := st.bump_ignore
        let mut_st2 : Bool × State :=
          match st1.peek with
          | some ⟨.Keyword .Mut, _⟩ => (true, st1.bump_ignore)
          | _ => (false, st1)
        match Ident.parse mut_st2.2 with
        | .err k sp => .err k sp
        | .fatal m => .fatal m
        | .outOfFuel => .outOfFuel
        | .ok lhs st3 =>
          match st3.bump_expected .Equal with
          | .err k sp => .err k sp
          | .fatal m => .fatal m
          | .outOfFuel => .outOfFuel
          | .ok _ st4 =>
            match Expr.parse st4 with
            | .err k sp => .err k sp
            | .fatal m => .fatal m
            | .outOfFuel => .outOfFuel
            | .ok rhs st5 =>
              let span : Span := ⟨span.pos, rhs.span.len + rhs.span.pos - span.pos⟩
              match st5.bump_expected .SemiColon with
              | .err k sp => .err k sp
              | .fatal m => .fatal m
              | .outOfFuel => .outOfFuel
              | .ok _ st6 => .ok ⟨.Assign mut_st2.1 lhs rhs, span⟩ st6
      -- for loop
      | .Keyword .For =>
        let span := token.span
        let st1 := st.bump_ignore
        match Ident.parse st1 with
        | .err k sp => .err k sp
        | .fatal m => .fatal m
        | .outOfFuel => .outOfFuel
        | .ok var st2 =>
          match st2.bump_expected (.Keyword .In) with
          | .err k sp => .err k sp
          | .fatal m => .fatal m
          | .outOfFuel => .outOfFuel
          | .ok _ st3 =>
            match st3.bump with
            | some (⟨.BigInt n, start_span⟩, st4) =>
              match parseU32 n with
              | none => .err .InvalidRangeSize start_span
              | some start =>
                match st4.bump_expected .DoubleDot with
                | .err k sp => .err k sp
                | .fatal m => .fatal m
                | .outOfFuel => .outOfFuel
                | .ok _ st5 =>
                  match st5.bump with
                  | some (⟨.BigInt n2, end_span⟩, st6) =>
                    match parseU32 n2 with
                    | none => .err .InvalidRangeSize end_span
                    | some stop =>
                      let range : Range := ⟨start, stop, start_span.merge_with end_span⟩
                      match st6.bump_expected .LeftCurlyBracket with
                      | .err k sp => .err k sp
                      | .fatal m => .fatal m
                      | .outOfFuel => .outOfFuel
                      | .ok _ st7 =>
                        match fuel with
                        | 0 => .outOfFuel
                        | fuel + 1 =>
                          match parse_block (Stmt.parseF fuel) fuel st7 [] with
                          | .err k sp => .err k sp
                          | .fatal m => .fatal m
                          | .outOfFuel => .outOfFuel
                          | .ok body st8 => .ok ⟨.ForLoop var range body, span⟩ st8
                  | some (_, st6) => .err (.ExpectedToken (.BigInt "")) st6.lastSpan
                  | none => .err (.ExpectedToken (.BigInt "")) st5.lastSpan
            | some (_, st4) => .err (.ExpectedToken (.BigInt "")) st4.lastSpan
            | none => .err (.ExpectedToken (.BigInt "")) st3.lastSpan
      -- if/else: unconditional abort in the source
      | .Keyword .If =>
        .fatal "if statements are not implemented yet. Use if expressions instead (e.g. `x = if cond \x7b 1 \x7d else \x7b 2 \x7d;`)"
      -- return
      | .Keyword .Return =>
        let st1 := st.bump_ignore
        match Expr.parse st1 with
        | .err k sp => .err k sp
        | .fatal m => .fatal m
        | .outOfFuel => .outOfFuel
        | .ok expr st2 =>
          match st2.bump_expected .SemiColon with
          | .err k sp => .err k sp
          | .fatal m => .fatal m
          | .outOfFuel => .outOfFuel
          | .ok _ st3 => .ok ⟨.Return expr, token.span⟩ st3
      -- comment
      | .Comment c =>
        let st1 := st.bump_ignore
        .ok ⟨.Comment c, token.span⟩ st1
      -- statement expression (like a function call)
      | _ =>
        match Expr.parse st with
        | .err k sp => .err k sp
        | .fatal m => .fatal m
        | .outOfFuel => .outOfFuel
        | .ok expr st1 =>
          let span := expr.span
          match st1.bump_expected .SemiColon with
          | .err k sp => .err k sp
          | .fatal m => .fatal m
          | .outOfFuel => .outOfFuel
          | .ok _ st2 => .ok ⟨.Expr expr, span⟩ st2

/-- `Stmt::parse` entry point: the fuel bounds the number of statements and
the nesting depth, both of which the remaining token count dominates. -/
def Stmt.parse (st : State) : PResult Stmt :=
  Stmt.parseF (st.toks.length + 1) st

/-- `FnSig` from the source: name, arguments, optional return type. -/
structure FnSig where
  name : FnNameDef
  arguments : List FnArg
  return_type : Option Ty
deriving Repr

/-- `Function` from the source: signature, body, span. -/
structure Function where
  sig : FnSig
  body : List Stmt
  span : Span

/-- `Function::parse_fn_return_type`: an optional `->` type. -/
def Function.parse_fn_return_type (st : State) : PResult (Option Ty) :=
  match st.peek with
  | some ⟨.RightArrow, _⟩ =>
    let st1 := st.bump_ignore
    match Ty.parse st1 with
    | .err k sp => .err k sp
    | .fatal m => .fatal m
    | .outOfFuel => .outOfFuel
    | .ok return_type st2 => .ok (some return_type) st2
  | _ => .ok none st

/-- `Function::parse_fn_body`: consume `{`, then the statement-list loop. -/
def Function.parse_fn_body (st : State) : PResult (List Stmt) :=
  match st.bump_expected .LeftCurlyBracket with
  | .err k sp => .err k sp
  | .fatal m => .fatal m
  | .outOfFuel => .outOfFuel
  | .ok _ st1 => parse_block Stmt.parse (st1.toks.length + 1) st1 []

/-- `FnSig::parse`: name definition, arguments (threading the method
context), optional return type. -/
def FnSig.parse (st : State) : PResult FnSig :=
  match FnNameDef.parse st with
  | .err k sp => .err k sp
  | .fatal m => .fatal m
  | .outOfFuel => .outOfFuel
  | .ok name st1 =>
    match Function.parse_args st1 name.self_name with
    | .err k sp => .err k sp
    | .fatal m => .fatal m
    | .outOfFuel => .outOfFuel
    | .ok arguments st2 =>
      match Function.parse_fn_return_type st2 with
      | .err k sp => .err k sp
      | .fatal m => .fatal m
      | .outOfFuel => .outOfFuel
      | .ok return_type st3 => .ok ⟨name, arguments, return_type⟩ st3

/-- `Function::parse` (without the `fn` keyword): signature, then body; a
body with no last statement — an empty body — is a recoverable error. -/
def Function.parse (st : State) : PResult Function :=
  match st.peek with
  | none => .err (.InvalidFunctionSignature "expected function name") st.lastSpan
  | some first =>
    let span := first.span
    match FnNameDef.parse st with
    | .err k sp => .err k sp
    | .fatal m => .fatal m
    | .outOfFuel => .outOfFuel
    | .ok name st1 =>
      match Function.parse_args st1 name.self_name with
      | .err k sp => .err k sp
      | .fatal m => .fatal m
      | .outOfFuel => .outOfFuel
      | .ok arguments st2 =>
        match Function.parse_fn_return_type st2 with
        | .err k sp => .err k sp
        | .fatal m => .fatal m
        | .outOfFuel => .outOfFuel
        | .ok return_type st3 =>
          match Function.parse_fn_body st3 with
          | .err k sp => .err k sp
          | .fatal m => .fatal m
          | .outOfFuel => .outOfFuel
          | .ok body st4 =>
            match body.getLast? with
            | some t =>
              .ok ⟨⟨name, arguments, return_type⟩, body,
                ⟨span.pos, t.span.pos + t.span.len - span.pos⟩⟩ st4
            | none =>
              .err (.InvalidFunctionSignature "expected function body") st4.lastSpan

/-- The field loop of `parse_type_declaration`: read `name: expr` pairs until
the closing brace; after each field a comma continues and a closing brace
breaks, anything else is `InvalidEndOfLine`. -/
def parse_type_declaration_loop :
    Nat → State → List (Ident × Expr) → PResult (List (Ident × Expr))
  | fuel, st, fields =>
    match st.toks with
    | ⟨.RightCurlyBracket, sp⟩ :: rest => .ok fields ⟨sp, rest⟩
    | _ =>
      match Ident.parse st with
      | .err k sp => .err k sp
      | .fatal m => .fatal m
      | .outOfFuel => .outOfFuel
      | .ok field_name st1 =>
        match st1.bump_expected .Colon with
        | .err k sp => .err k sp
        | .fatal m => .fatal m
        | .outOfFuel => .outOfFuel
        | .ok _ st2 =>
          match Expr.parse st2 with
          | .err k sp => .err k sp
          | .fatal m => .fatal m
          | .outOfFuel => .outOfFuel
          | .ok field_value st3 =>
            let fields := fields ++ [(field_name, field_value)]
            match st3.bump_err .InvalidEndOfLine with
            | .err k sp => .err k sp
            | .fatal m => .fatal m
            | .outOfFuel => .outOfFuel
            | .ok sep st4 =>
              match sep.kind with
              | .Comma =>
                match fuel with
                | 0 => .outOfFuel
                | fuel + 1 => parse_type_declaration_loop fuel st4 fields
              | .RightCurlyBracket => .ok fields st4
              | _ => .err .InvalidEndOfLine st4.lastSpan

/-- `parse_type_declaration`: a struct-literal expression `Thing { x: 1 }`,
entered with the already-parsed identifier and the cursor on `{`.  A
non-type-cased identifier is the source's unconditional `panic!`; note the
first `tokens.bump(ctx)` discards its result without checking the token. -/
def parse_type_declaration (st : State) (ident : Ident) : PResult Expr :=
  if !is_type ident.value then
    .fatal "this looks like a type declaration but not on a type (types start with an uppercase) (TODO: better error)"
  else
    let st1 := st.bump_ignore
    match parse_type_declaration_loop (st1.toks.length + 1) st1 [] with
    | .err k sp => .err k sp
    | .fatal m => .fatal m
    | .outOfFuel => .outOfFuel
    | .ok fields st2 =>
      let span := ident.span.merge_with st2.lastSpan
      .ok ⟨.CustomTypeDeclaration ident fields, span⟩ st2

/-- `UsePath` from the source: a two-segment `module::submodule` import. -/
structure UsePath where
  module : Ident
  submodule : Ident
  span : Span
deriving DecidableEq, Repr

/-- `UsePath::parse`: exactly `module :: submodule`, the span merging both
segments.  The function returns as soon as the second segment is read. -/
def UsePath.parse (st : State) : PResult UsePath :=
  match st.bump_ident (.InvalidPath "wrong path: expected a module (TODO: better error") with
  | .err k sp => .err k sp
  | .fatal m => .fatal m
  | .outOfFuel => .outOfFuel
  | .ok module st1 =>
    let span := module.span
    match st1.bump_expected .DoubleColon with
    | .err k sp => .err k sp
    | .fatal m => .fatal m
    | .outOfFuel => .outOfFuel
    | .ok _ st2 =>
      match st2.bump_ident
          (.InvalidPath "wrong path: expected a submodule after `::` (TODO: better error") with
      | .err k sp => .err k sp
      | .fatal m => .fatal m
      | .outOfFuel => .outOfFuel
      | .ok submodule st3 =>
        .ok ⟨module, submodule, span.merge_with submodule.span⟩ st3

/-- `Const` from the source: a named field-element constant. -/
structure Const where
  name : Ident
  value : Field
  span : Span
deriving DecidableEq, Repr

/-- `Const::parse` (after the `const` keyword): `name = <literal>;`.  A
right-hand side that is not a literal-integer expression node is
`InvalidConstType`; a literal that fails to parse as a field element is
`InvalidField`. -/
def Const.parse (st : State) : PResult Const :=
  match Ident.parse st with
  | .err k sp => .err k sp
  | .fatal m => .fatal m
  | .outOfFuel => .outOfFuel
  | .ok name st1 =>
    match st1.bump_expected .Equal with
    | .err k sp => .err k sp
    | .fatal m => .fatal m
    | .outOfFuel => .outOfFuel
    | .ok _ st2 =>
      match Expr.parse st2 with
      | .err k sp => .err k sp
      | .fatal m => .fatal m
      | .outOfFuel => .outOfFuel
      | .ok value st3 =>
        match ((match value.kind with
                | .BigInt s =>
                  match fieldFromStr s with
                  | some f => .ok f st3
                  | none => .err (.InvalidField s) value.span
                | _ => .err .InvalidConstType value.span) :
               PResult Field) with
        | .err k sp => .err k sp
        | .fatal m => .fatal m
        | .outOfFuel => .outOfFuel
        | .ok v st4 =>
          match st4.bump_expected .SemiColon with
          | .err k sp => .err k sp
          | .fatal m => .fatal m
          | .outOfFuel => .outOfFuel
          | .ok _ st5 => .ok ⟨name, v, name.span⟩ st5

/-- `CustomType` from the source: a struct-name occurrence. -/
structure CustomType where
  value : String
  span : Span
deriving DecidableEq, Repr

/-- `CustomType::parse`: one identifier; a non-type-cased name is the
source's unconditional `panic!`, and a reserved primitive name is a
recoverable `ReservedType` error. -/
def CustomType.parse (st : State) : PResult CustomType :=
  match st.bump_ident .InvalidType with
  | .err k sp => .err k sp
  | .fatal m => .fatal m
  | .outOfFuel => .outOfFuel
  | .ok ty_name st1 =>
    if !is_type ty_name.value then
      .fatal "type name should start with uppercase letter (TODO: better error"
    else
      match Ty.reserved_types none ty_name with
      | .ok (.Custom _ _) => .ok ⟨ty_name.value, ty_name.span⟩ st1
      | .ok _ => .err (.ReservedType ty_name.value) ty_name.span
      | .error m => .fatal m

/-- `Struct` from the source: a top-level struct declaration. -/
structure Struct where
  name : CustomType
  fields : List (Ident × Ty)
  span : Span
deriving DecidableEq, Repr

/-- The field loop of `Struct::parse`: `name: type` pairs until the closing
brace; after each field the source peeks for a comma (continue) or a closing
brace (break), anything else is a `Comma`-expected error at the last span. -/
def Struct.parse_fields :
    Nat → State → List (Ident × Ty) → PResult (List (Ident × Ty))
  | fuel, st, fields =>
    match st.toks with
    | ⟨.RightCurlyBracket, sp⟩ :: rest => .ok fields ⟨sp, rest⟩
    | _ =>
      match Ident.parse st with
      | .err k sp => .err k sp
      | .fatal m => .fatal m
      | .outOfFuel => .outOfFuel
      | .ok field_name st1 =>
        match st1.bump_expected .Colon with
        | .err k sp => .err k sp
        | .fatal m => .fatal m
        | .outOfFuel => .outOfFuel
        | .ok _ st2 =>
          match Ty.parse st2 with
          | .err k sp => .err k sp
          | .fatal m => .fatal m
          | .outOfFuel => .outOfFuel
          | .ok field_ty st3 =>
            let fields := fields ++ [(field_name, field_ty)]
            match st3.toks with
            | ⟨.Comma, csp⟩ :: rest =>
              match fuel with
              | 0 => .outOfFuel
              | fuel + 1 => Struct.parse_fields fuel ⟨csp, rest⟩ fields
            | ⟨.RightCurlyBracket, bsp⟩ :: rest => .ok fields ⟨bsp, rest⟩
            | _ => .err (.ExpectedToken .Comma) st3.lastSpan

/-- `Struct::parse` (after the `struct` keyword): the struct name via
`CustomType::parse`, then `{`, then the field loop; the final span merges the
first token's span with the last consumed span. -/
def Struct.parse (st : State) : PResult Struct :=
  match st.peek with
  | none => .err (.InvalidFunctionSignature "expected function name") st.lastSpan
  | some first =>
    let span := first.span
    match CustomType.parse st with
    | .err k sp => .err k sp
    | .fatal m => .fatal m
    | .outOfFuel => .outOfFuel
    | .ok name st1 =>
      match st1.bump_expected .LeftCurlyBracket with
      | .err k sp => .err k sp
      | .fatal m => .fatal m
      | .outOfFuel => .outOfFuel
      | .ok _ st2 =>
        match Struct.parse_fields (st2.toks.length + 1) st2 [] with
        | .err k sp => .err k sp
        | .fatal m => .fatal m
        | .outOfFuel => .outOfFuel
        | .ok fields st3 =>
          .ok ⟨name, fields, span.merge_with st3.lastSpan⟩ st3

/-- Claim C1: `match_expected` treats the Field/BigInt pair asymmetrically:
`match_expected(BigInt, Field) = true` but `match_expected(Field, BigInt) =
false` (the reverse falls through to exact equality and fails), while
`same_as` is symmetric on this pair: both directions are `true`. -/
theorem c1_field_bigint_asymmetry :
    TyKind.match_expected .BigInt .Field = true ∧
    TyKind.match_expected .Field .BigInt = false ∧
    TyKind.same_as .Field .BigInt = true ∧
    TyKind.same_as .BigInt .Field = true := by
  decide

/-- Claim C3: `same_as(Array(a, n), Array(b, m))` holds iff `n = m` and
`match_expected(a, b)` holds — the array arm of `same_as` recurses into the
other, asymmetric relation, so `same_as(Array(BigInt,2), Array(Field,2))` is
true while `same_as(Array(Field,2), Array(BigInt,2))` is false; and under
both relations arrays of unequal sizes are never equivalent. -/
theorem c3_array_equivalence (a b : TyKind) (n m : Nat) :
    (TyKind.same_as (.Array a n) (.Array b m) = true ↔
      n = m ∧ TyKind.match_expected a b = true) ∧
    TyKind.same_as (.Array .BigInt 2) (.Array .Field 2) = true ∧
    TyKind.same_as (.Array .Field 2) (.Array .BigInt 2) = false ∧
    (n ≠ m →
      TyKind.same_as (.Array a n) (.Array b m) = false ∧
      TyKind.match_expected (.Array a n) (.Array b m) = false) := by
  refine ⟨?_, by decide, by decide, fun hnm => ⟨?_, ?_⟩⟩
  · simp only [TyKind.same_as]
    simp [Bool.and_eq_true, decide_eq_true_iff]
  · simp only [TyKind.same_as]
    simp [hnm]
  · simp only [TyKind.match_expected]
    simp [hnm]

/-- Claim C3 witness: arrays of sizes 3 and 4 with equal element type are
equivalent under neither relation. -/
theorem c3_array_equivalence_witness :
    TyKind.same_as (.Array .Field 3) (.Array .Field 4) = false ∧
    TyKind.match_expected (.Array .Field 3) (.Array .Field 4) = false :=
  (c3_array_equivalence TyKind.Field TyKind.Field 3 4).2.2.2 (by decide)

/-- Claim C4: under both relations, two `Custom` types are equivalent iff the
name texts are equal and, whenever both sides carry a module, the module
identifiers are equal; a side with no module acts as a wildcard.  Concretely,
`Custom{module: None, name: "Foo"}` matches `Custom{module: Some("m"), name:
"Foo"}` in either direction, but `Custom{module: Some("a")}` never matches
`Custom{module: Some("b")}` with the same name. -/
theorem c4_custom_equivalence (m1 m2 : Option Ident) (n1 n2 : Ident) :
    (TyKind.match_expected (.Custom m1 n1) (.Custom m2 n2) = true ↔
      (∀ a b, m1 = some a → m2 = some b → a = b) ∧ n1.value = n2.value) ∧
    (TyKind.same_as (.Custom m1 n1) (.Custom m2 n2) = true ↔
      (∀ a b, m1 = some a → m2 = some b → a = b) ∧ n1.value = n2.value) ∧
    (TyKind.match_expected (.Custom none ⟨"Foo", ⟨0, 3⟩⟩)
        (.Custom (some ⟨"m", ⟨10, 1⟩⟩) ⟨"Foo", ⟨13, 3⟩⟩) = true) ∧
    (TyKind.match_expected (.Custom (some ⟨"m", ⟨10, 1⟩⟩) ⟨"Foo", ⟨13, 3⟩⟩)
        (.Custom none ⟨"Foo", ⟨0, 3⟩⟩) = true) ∧
    (TyKind.same_as (.Custom none ⟨"Foo", ⟨0, 3⟩⟩)
        (.Custom (some ⟨"m", ⟨10, 1⟩⟩) ⟨"Foo", ⟨13, 3⟩⟩) = true) ∧
    (TyKind.same_as (.Custom (some ⟨"m", ⟨10, 1⟩⟩) ⟨"Foo", ⟨13, 3⟩⟩)
        (.Custom none ⟨"Foo", ⟨0, 3⟩⟩) = true) ∧
    (TyKind.match_expected (.Custom (some ⟨"a", ⟨0, 1⟩⟩) ⟨"Foo", ⟨3, 3⟩⟩)
        (.Custom (some ⟨"b", ⟨0, 1⟩⟩) ⟨"Foo", ⟨3, 3⟩⟩) = false) ∧
    (TyKind.same_as (.Custom (some ⟨"a", ⟨0, 1⟩⟩) ⟨"Foo", ⟨3, 3⟩⟩)
        (.Custom (some ⟨"b", ⟨0, 1⟩⟩) ⟨"Foo", ⟨3, 3⟩⟩) = false) := by
  refine ⟨?_, ?_, by decide, by decide, by decide, by decide, by decide, by decide⟩
  · simp only [TyKind.match_expected]
    cases m1 <;> cases m2 <;> simp
  · simp only [TyKind.same_as]
    cases m1 <;> cases m2 <;> simp

/-- Claim C4 witness: the general characterization applied at a concrete
input — two `Custom` types with both modules `Some("m")` (equal value and
span) and name text `"Foo"` at different spans are equivalent, showing the
name comparison ignores spans. -/
theorem c4_custom_equivalence_witness :
    TyKind.match_expected (.Custom (some ⟨"m", ⟨0, 1⟩⟩) ⟨"Foo", ⟨2, 3⟩⟩)
      (.Custom (some ⟨"m", ⟨0, 1⟩⟩) ⟨"Foo", ⟨9, 3⟩⟩) = true :=
  (c4_custom_equivalence (some ⟨"m", ⟨0, 1⟩⟩) (some ⟨"m", ⟨0, 1⟩⟩)
      ⟨"Foo", ⟨2, 3⟩⟩ ⟨"Foo", ⟨9, 3⟩⟩).1.mpr
    ⟨fun a b ha hb => by cases ha; cases hb; rfl, rfl⟩

/-- Claim C2 counterexample: on the token sequence for `mod::Custom` (which
occupies source range `[0, 11)`), `Ty::parse` succeeds with the expected
`TyKind` but returns the span of the module token alone, `(0, 3)` — not a
span covering the whole type text `(0, 11)`.  The merged span is computed in
the source but bound to `_span` and discarded. -/
theorem c2_qualified_type_span_counterexample :
    Ty.parse ⟨⟨0, 0⟩, [⟨.Identifier "mod", ⟨0, 3⟩⟩, ⟨.DoubleColon, ⟨3, 2⟩⟩,
        ⟨.Identifier "Custom", ⟨5, 6⟩⟩]⟩ =
      .ok ⟨.Custom (some ⟨"mod", ⟨0, 3⟩⟩) ⟨"Custom", ⟨5, 6⟩⟩, ⟨0, 3⟩⟩
        ⟨⟨5, 6⟩, []⟩ ∧
    (⟨0, 3⟩ : Span) ≠ ⟨0, 11⟩ := by
  decide

/-- Claim C2 (amended): for the literal type strings of the grammar,
`Ty::parse` yields the exact expected `TyKind` shape; the span covers the
whole type text for bare primitives (`Field`, `Bool`) and for arrays
(`[Field; 4]`, `[[Bool; 2]; 3]`, brackets included), but for a
module-qualified custom type (`mod::Custom`) the span covers only the module
identifier token. -/
theorem c2_ty_parse_shapes_and_spans :
    Ty.parse ⟨⟨0, 0⟩, [⟨.Identifier "Field", ⟨0, 5⟩⟩]⟩ =
      .ok ⟨.Field, ⟨0, 5⟩⟩ ⟨⟨0, 5⟩, []⟩ ∧
    Ty.parse ⟨⟨0, 0⟩, [⟨.Identifier "Bool", ⟨0, 4⟩⟩]⟩ =
      .ok ⟨.Bool, ⟨0, 4⟩⟩ ⟨⟨0, 4⟩, []⟩ ∧
    Ty.parse ⟨⟨0, 0⟩, [⟨.LeftBracket, ⟨0, 1⟩⟩, ⟨.Identifier "Field", ⟨1, 5⟩⟩,
        ⟨.SemiColon, ⟨6, 1⟩⟩, ⟨.BigInt "4", ⟨8, 1⟩⟩, ⟨.RightBracket, ⟨9, 1⟩⟩]⟩ =
      .ok ⟨.Array .Field 4, ⟨0, 10⟩⟩ ⟨⟨9, 1⟩, []⟩ ∧
    Ty.parse ⟨⟨0, 0⟩, [⟨.LeftBracket, ⟨0, 1⟩⟩, ⟨.LeftBracket, ⟨1, 1⟩⟩,
        ⟨.Identifier "Bool", ⟨2, 4⟩⟩, ⟨.SemiColon, ⟨6, 1⟩⟩, ⟨.BigInt "2", ⟨8, 1⟩⟩,
        ⟨.RightBracket, ⟨9, 1⟩⟩, ⟨.SemiColon, ⟨10, 1⟩⟩, ⟨.BigInt "3", ⟨12, 1⟩⟩,
        ⟨.RightBracket, ⟨13, 1⟩⟩]⟩ =
      .ok ⟨.Array (.Array .Bool 2) 3, ⟨0, 14⟩⟩ ⟨⟨13, 1⟩, []⟩ ∧
    Ty.parse ⟨⟨0, 0⟩, [⟨.Identifier "mod", ⟨0, 3⟩⟩, ⟨.DoubleColon, ⟨3, 2⟩⟩,
        ⟨.Identifier "Custom", ⟨5, 6⟩⟩]⟩ =
      .ok ⟨.Custom (some ⟨"mod", ⟨0, 3⟩⟩) ⟨"Custom", ⟨5, 6⟩⟩, ⟨0, 3⟩⟩
        ⟨⟨5, 6⟩, []⟩ := by
  refine ⟨by decide, by decide, by decide, by decide, by decide⟩

/-- Claim C5: the four currently-fatal conditions abort the parse
unconditionally — they produce the source's `panic!` (modelled as a `fatal`
outcome, a constructor distinct from every recoverable `err`), on any token
stream reaching them: (1) `parse_type_declaration` on a non-type-cased
identifier, (2) `Ty::reserved_types` for `Field`/`Bool` with a module
qualifier, (3) `CustomType::parse` on a non-type-cased struct name, and (4)
`Stmt::parse` on the `if` keyword. -/
theorem c5_fatal_conditions :
    (∀ (st : State) (ident : Ident), is_type ident.value = false →
      parse_type_declaration st ident =
        .fatal "this looks like a type declaration but not on a type (types start with an uppercase) (TODO: better error)") ∧
    (∀ (m name : Ident), (name.value = "Field" ∨ name.value = "Bool") →
      Ty.reserved_types (some m) name =
        .error "reserved types cannot be in a module (TODO: better error)") ∧
    (∀ (s : String) (sp last : Span) (rest : List Token), is_type s = false →
      CustomType.parse ⟨last, ⟨.Identifier s, sp⟩ :: rest⟩ =
        .fatal "type name should start with uppercase letter (TODO: better error") ∧
    (∀ (fuel : Nat) (st : State) (sp : Span), st.peek = some ⟨.Keyword .If, sp⟩ →
      Stmt.parseF fuel st =
        .fatal "if statements are not implemented yet. Use if expressions instead (e.g. `x = if cond \x7b 1 \x7d else \x7b 2 \x7d;`)") := by
  refine ⟨?_, ?_, ?_, ?_⟩
  · intro st ident h
    simp [parse_type_declaration, h]
  · intro m name h
    rcases h with h | h <;> simp [Ty.reserved_types, h]
  · intro s sp last rest h
    simp [CustomType.parse, State.bump_ident, State.bump, h]
  · intro fuel st sp h
    simp only [Stmt.parseF, h]

/-- Claim C5 witness: each fatal condition fired on a concrete input. -/
theorem c5_fatal_conditions_witness :
    parse_type_declaration ⟨⟨0, 0⟩, []⟩ ⟨"thing", ⟨0, 5⟩⟩ =
      .fatal "this looks like a type declaration but not on a type (types start with an uppercase) (TODO: better error)" ∧
    Ty.reserved_types (some ⟨"mod", ⟨0, 3⟩⟩) ⟨"Field", ⟨5, 5⟩⟩ =
      .error "reserved types cannot be in a module (TODO: better error)" ∧
    CustomType.parse ⟨⟨0, 0⟩, [⟨.Identifier "thing", ⟨0, 5⟩⟩]⟩ =
      .fatal "type name should start with uppercase letter (TODO: better error" ∧
    Stmt.parseF 0 ⟨⟨0, 0⟩, [⟨.Keyword .If, ⟨0, 2⟩⟩]⟩ =
      .fatal "if statements are not implemented yet. Use if expressions instead (e.g. `x = if cond \x7b 1 \x7d else \x7b 2 \x7d;`)" :=
  ⟨c5_fatal_conditions.1 _ _ (by decide),
   c5_fatal_conditions.2.1 _ _ (Or.inl rfl),
   c5_fatal_conditions.2.2.1 "thing" ⟨0, 5⟩ ⟨0, 0⟩ [] (by decide),
   c5_fatal_conditions.2.2.2 0 _ ⟨0, 2⟩ rfl⟩

/-- Claim C8 counterexample: `UsePath::parse` on the token sequence for
`alice::lib::extra` does **not** fail — it succeeds, consuming only the
first two segments and leaving `::extra` unconsumed in the stream. -/
theorem c8_use_path_counterexample :
    UsePath.parse ⟨⟨0, 0⟩, [⟨.Identifier "alice", ⟨0, 5⟩⟩, ⟨.DoubleColon, ⟨5, 2⟩⟩,
        ⟨.Identifier "lib", ⟨7, 3⟩⟩, ⟨.DoubleColon, ⟨10, 2⟩⟩,
        ⟨.Identifier "extra", ⟨12, 5⟩⟩]⟩ =
      .ok ⟨⟨"alice", ⟨0, 5⟩⟩, ⟨"lib", ⟨7, 3⟩⟩, ⟨0, 10⟩⟩
        ⟨⟨7, 3⟩, [⟨.DoubleColon, ⟨10, 2⟩⟩, ⟨.Identifier "extra", ⟨12, 5⟩⟩]⟩ := by
  decide

/-- Claim C8 (amended): `UsePath::parse` on `alice::lib` succeeds with
`UsePath{module: "alice", submodule: "lib"}` and a span merging both
segments; on `alice::lib::extra` it does not fail: it returns the same
two-segment `UsePath`, leaving `::extra` unconsumed — exactly two segments
are ever consumed into a use-path, deeper nesting is never incorporated
(only a surrounding parser that demands a terminator would reject it). -/
theorem c8_use_path_two_segments :
    UsePath.parse ⟨⟨0, 0⟩, [⟨.Identifier "alice", ⟨0, 5⟩⟩, ⟨.DoubleColon, ⟨5, 2⟩⟩,
        ⟨.Identifier "lib", ⟨7, 3⟩⟩]⟩ =
      .ok ⟨⟨"alice", ⟨0, 5⟩⟩, ⟨"lib", ⟨7, 3⟩⟩, ⟨0, 10⟩⟩ ⟨⟨7, 3⟩, []⟩ ∧
    UsePath.parse ⟨⟨0, 0⟩, [⟨.Identifier "alice", ⟨0, 5⟩⟩, ⟨.DoubleColon, ⟨5, 2⟩⟩,
        ⟨.Identifier "lib", ⟨7, 3⟩⟩, ⟨.DoubleColon, ⟨10, 2⟩⟩,
        ⟨.Identifier "extra", ⟨12, 5⟩⟩]⟩ =
      .ok ⟨⟨"alice", ⟨0, 5⟩⟩, ⟨"lib", ⟨7, 3⟩⟩, ⟨0, 10⟩⟩
        ⟨⟨7, 3⟩, [⟨.DoubleColon, ⟨10, 2⟩⟩, ⟨.Identifier "extra", ⟨12, 5⟩⟩]⟩ := by
  refine ⟨by decide, by decide⟩

/-- Claim C9: `Const::parse` on the tokens after `const` in
`const foo = 42;` succeeds with name `foo` and value `42`; a right-hand side
expression that is not a literal-integer (`BigInt`) node — e.g.
`const foo = true;` — is a recoverable `InvalidConstType` error; and a
literal that fails to parse as a field element is a recoverable
`InvalidField` error. -/
theorem c9_const_parse :
    Const.parse ⟨⟨0, 0⟩, [⟨.Identifier "foo", ⟨6, 3⟩⟩, ⟨.Equal, ⟨10, 1⟩⟩,
        ⟨.BigInt "42", ⟨12, 2⟩⟩, ⟨.SemiColon, ⟨14, 1⟩⟩]⟩ =
      .ok ⟨⟨"foo", ⟨6, 3⟩⟩, 42, ⟨6, 3⟩⟩ ⟨⟨14, 1⟩, []⟩ ∧
    Const.parse ⟨⟨0, 0⟩, [⟨.Identifier "foo", ⟨6, 3⟩⟩, ⟨.Equal, ⟨10, 1⟩⟩,
        ⟨.Keyword .True, ⟨12, 4⟩⟩, ⟨.SemiColon, ⟨16, 1⟩⟩]⟩ =
      .err .InvalidConstType ⟨12, 4⟩ ∧
    (∀ (st st1 st2 st3 : State) (name : Ident) (t : Token) (v : Expr),
      Ident.parse st = .ok name st1 →
      st1.bump_expected .Equal = .ok t st2 →
      Expr.parse st2 = .ok v st3 →
      (∀ s, v.kind ≠ .BigInt s) →
      Const.parse st = .err .InvalidConstType v.span) ∧
    (∀ (st st1 st2 st3 : State) (name : Ident) (t : Token) (v : Expr) (s : String),
      Ident.parse st = .ok name st1 →
      st1.bump_expected .Equal = .ok t st2 →
      Expr.parse st2 = .ok v st3 →
      v.kind = .BigInt s →
      fieldFromStr s = none →
      Const.parse st = .err (.InvalidField s) v.span) := by
  refine ⟨by decide, by decide, ?_, ?_⟩
  · intro st st1 st2 st3 name t v h1 h2 h3 h4
    simp only [Const.parse, h1, h2, h3]
  · intro st st1 st2 st3 name t v s h1 h2 h3 hk hs
    simp only [Const.parse, h1, h2, h3, hk, hs]

/-- Claim C9 witness: the general error clauses applied at concrete inputs —
`const foo = true;` yields `InvalidConstType`, and a `BigInt` literal token
whose text `"abc"` is not a field element yields `InvalidField "abc"`. -/
theorem c9_const_parse_witness :
    Const.parse ⟨⟨0, 0⟩, [⟨.Identifier "foo", ⟨6, 3⟩⟩, ⟨.Equal, ⟨10, 1⟩⟩,
        ⟨.Keyword .True, ⟨12, 4⟩⟩, ⟨.SemiColon, ⟨16, 1⟩⟩]⟩ =
      .err .InvalidConstType ⟨12, 4⟩ ∧
    Const.parse ⟨⟨0, 0⟩, [⟨.Identifier "foo", ⟨6, 3⟩⟩, ⟨.Equal, ⟨10, 1⟩⟩,
        ⟨.BigInt "abc", ⟨12, 3⟩⟩, ⟨.SemiColon, ⟨15, 1⟩⟩]⟩ =
      .err (.InvalidField "abc") ⟨12, 3⟩ :=
  ⟨c9_const_parse.2.2.1 ⟨⟨0, 0⟩, [⟨.Identifier "foo", ⟨6, 3⟩⟩, ⟨.Equal, ⟨10, 1⟩⟩,
        ⟨.Keyword .True, ⟨12, 4⟩⟩, ⟨.SemiColon, ⟨16, 1⟩⟩]⟩ _ _ _ _ _ _ rfl rfl rfl
      (by intro s; simp [Expr.kind]),
   c9_const_parse.2.2.2 ⟨⟨0, 0⟩, [⟨.Identifier "foo", ⟨6, 3⟩⟩, ⟨.Equal, ⟨10, 1⟩⟩,
        ⟨.BigInt "abc", ⟨12, 3⟩⟩, ⟨.SemiColon, ⟨15, 1⟩⟩]⟩ _ _ _ _ _ _ "abc"
      rfl rfl rfl rfl rfl⟩

/-- Claim C10: both struct-field-list parsers accept an empty field list —
`Struct::parse` on `Name { }` (after the `struct` keyword) succeeds with no
fields, and `parse_type_declaration` on a struct-literal `Name { }` succeeds
with no fields; neither enforces non-emptiness. -/
theorem c10_empty_field_lists :
    (∀ (name : String) (spn sp1 sp2 last : Span) (rest : List Token),
      is_type name = true → name ≠ "Field" → name ≠ "Bool" →
      Struct.parse ⟨last, ⟨.Identifier name, spn⟩ :: ⟨.LeftCurlyBracket, sp1⟩ ::
          ⟨.RightCurlyBracket, sp2⟩ :: rest⟩ =
        .ok ⟨⟨name, spn⟩, [], spn.merge_with sp2⟩ ⟨sp2, rest⟩) ∧
    (∀ (ident : Ident) (sp1 sp2 last : Span) (rest : List Token),
      is_type ident.value = true →
      parse_type_declaration ⟨last, ⟨.LeftCurlyBracket, sp1⟩ ::
          ⟨.RightCurlyBracket, sp2⟩ :: rest⟩ ident =
        .ok ⟨.CustomTypeDeclaration ident [], ident.span.merge_with sp2⟩ ⟨sp2, rest⟩) := by
  constructor
  · intro name spn sp1 sp2 last rest h1 h2 h3
    simp [Struct.parse, State.peek, CustomType.parse, State.bump_ident, State.bump,
      Ty.reserved_types, State.bump_expected, Struct.parse_fields, h1, h2, h3]
  · intro ident sp1 sp2 last rest h1
    simp [parse_type_declaration, State.bump_ignore, parse_type_declaration_loop, h1]

/-- Claim C10 witness: `Thing { }` accepted by both parsers with zero
fields. -/
theorem c10_empty_field_lists_witness :
    Struct.parse ⟨⟨0, 0⟩, [⟨.Identifier "Thing", ⟨7, 5⟩⟩, ⟨.LeftCurlyBracket, ⟨13, 1⟩⟩,
        ⟨.RightCurlyBracket, ⟨15, 1⟩⟩]⟩ =
      .ok ⟨⟨"Thing", ⟨7, 5⟩⟩, [], Span.merge_with ⟨7, 5⟩ ⟨15, 1⟩⟩ ⟨⟨15, 1⟩, []⟩ ∧
    parse_type_declaration ⟨⟨0, 5⟩, [⟨.LeftCurlyBracket, ⟨6, 1⟩⟩,
        ⟨.RightCurlyBracket, ⟨8, 1⟩⟩]⟩ ⟨"Thing", ⟨0, 5⟩⟩ =
      .ok ⟨.CustomTypeDeclaration ⟨"Thing", ⟨0, 5⟩⟩ [],
        Span.merge_with ⟨0, 5⟩ ⟨8, 1⟩⟩ ⟨⟨8, 1⟩, []⟩ :=
  ⟨c10_empty_field_lists.1 "Thing" ⟨7, 5⟩ ⟨13, 1⟩ ⟨15, 1⟩ ⟨0, 0⟩ [] (by decide)
      (by decide) (by decide),
   c10_empty_field_lists.2 ⟨"Thing", ⟨0, 5⟩⟩ ⟨6, 1⟩ ⟨8, 1⟩ ⟨0, 5⟩ [] (by decide)⟩

/-- Claim C6: in the argument loop of `Function::parse_args`, an argument
literally named `self` behaves as follows: with no enclosing method context
(`self_name = None`) the parser returns a recoverable error; when `self` is
not the first argument (non-empty accumulator) it returns a recoverable
error; when `self` carries a `pub`/`const` attribute it returns a
recoverable error; otherwise no `: type` annotation is consumed — the token
right after `self` is already treated as the argument separator — and the
argument's type is synthesized as `Custom{module: None, name: <self_name>}`
with the enclosing name's span. -/
theorem c6_self_argument :
    (∀ (fuel : Nat) (args : List FnArg) (sp last : Span) (rest : List Token),
      Function.parse_args_loop none fuel ⟨last, ⟨.Identifier "self", sp⟩ :: rest⟩ args =
        .err (.InvalidFunctionSignature
          "the `self` argument is only allowed in struct methods") sp) ∧
    (∀ (fuel : Nat) (sn : Ident) (args : List FnArg) (sp last : Span) (rest : List Token),
      args ≠ [] →
      Function.parse_args_loop (some sn) fuel ⟨last, ⟨.Identifier "self", sp⟩ :: rest⟩ args =
        .err (.InvalidFunctionSignature "`self` must be the first argument") sp) ∧
    (∀ (fuel : Nat) (sn : Ident) (args : List FnArg) (k : TokenKind) (asp sp last : Span)
        (rest : List Token),
      k = .Keyword .Pub ∨ k = .Keyword .Const →
      ∃ ek esp,
        Function.parse_args_loop (some sn) fuel
          ⟨last, ⟨k, asp⟩ :: ⟨.Identifier "self", sp⟩ :: rest⟩ args = .err ek esp) ∧
    (∀ (fuel : Nat) (sn : Ident) (sp sepSp last : Span) (rest : List Token),
      Function.parse_args_loop (some sn) fuel
          ⟨last, ⟨.Identifier "self", sp⟩ :: ⟨.RightParen, sepSp⟩ :: rest⟩ [] =
        .ok [⟨⟨"self", sp⟩, ⟨.Custom none ⟨sn.value, sn.span⟩, sn.span⟩, none, sp⟩]
          ⟨sepSp, rest⟩) ∧
    (∀ (sn : Ident) (lp sp sepSp last : Span) (rest : List Token),
      Function.parse_args ⟨last, ⟨.LeftParen, lp⟩ :: ⟨.Identifier "self", sp⟩ ::
          ⟨.RightParen, sepSp⟩ :: rest⟩ (some sn) =
        .ok [⟨⟨"self", sp⟩, ⟨.Custom none ⟨sn.value, sn.span⟩, sn.span⟩, none, sp⟩]
          ⟨sepSp, rest⟩) := by
  refine ⟨?_, ?_, ?_, ?_, ?_⟩
  · intro fuel args sp last rest
    simp [Function.parse_args_loop, State.bump_err, State.bump]
  · intro fuel sn args sp last rest h
    cases args with
    | nil => exact absurd rfl h
    | cons a as =>
      simp [Function.parse_args_loop, State.bump_err, State.bump]
  · intro fuel sn args k asp sp last rest hk
    obtain rfl | rfl := hk
    all_goals
      cases args with
      | cons a as =>
        refine ⟨.InvalidFunctionSignature "`self` must be the first argument", sp, ?_⟩
        rw [Function.parse_args_loop]
        simp [State.bump_err, State.bump, Ident.parse, PResult.bind]
      | nil =>
        cases rest with
        | nil =>
          refine ⟨.InvalidFunctionSignature
            "expected end of function or other argument", sp, ?_⟩
          rw [Function.parse_args_loop]
          simp [State.bump_err, State.bump, Ident.parse, PResult.bind]
        | cons t ts =>
          refine ⟨.SelfHasAttribute, sp, ?_⟩
          rw [Function.parse_args_loop]
          simp [State.bump_err, State.bump, Ident.parse, PResult.bind]
  · intro fuel sn sp sepSp last rest
    simp [Function.parse_args_loop, State.bump_err, State.bump]
  · intro sn lp sp sepSp last rest
    simp [Function.parse_args, Function.parse_args_loop, State.bump_expected,
      State.bump_err, State.bump]

/-- Claim C6 witness: the self-argument clauses at concrete inputs —
`(self)` with method context `House` succeeds with the synthesized type,
`(self)` without a context and `(pub self)` with one are recoverable
errors, and `self` in second position is a recoverable error. -/
theorem c6_self_argument_witness :
    Function.parse_args_loop none 0 ⟨⟨0, 1⟩, [⟨.Identifier "self", ⟨1, 4⟩⟩,
        ⟨.RightParen, ⟨5, 1⟩⟩]⟩ [] =
      .err (.InvalidFunctionSignature
        "the `self` argument is only allowed in struct methods") ⟨1, 4⟩ ∧
    Function.parse_args_loop (some ⟨"House", ⟨0, 5⟩⟩) 0 ⟨⟨0, 1⟩,
        [⟨.Identifier "self", ⟨1, 4⟩⟩, ⟨.RightParen, ⟨5, 1⟩⟩]⟩
        [⟨⟨"xx", ⟨0, 2⟩⟩, ⟨.Field, ⟨0, 2⟩⟩, none, ⟨0, 2⟩⟩] =
      .err (.InvalidFunctionSignature "`self` must be the first argument") ⟨1, 4⟩ ∧
    (∃ ek esp, Function.parse_args_loop (some ⟨"House", ⟨0, 5⟩⟩) 0 ⟨⟨0, 1⟩,
        [⟨.Keyword .Pub, ⟨1, 3⟩⟩, ⟨.Identifier "self", ⟨5, 4⟩⟩,
         ⟨.RightParen, ⟨9, 1⟩⟩]⟩ [] = .err ek esp) ∧
    Function.parse_args ⟨⟨0, 0⟩, [⟨.LeftParen, ⟨0, 1⟩⟩, ⟨.Identifier "self", ⟨1, 4⟩⟩,
        ⟨.RightParen, ⟨5, 1⟩⟩]⟩ (some ⟨"House", ⟨0, 5⟩⟩) =
      .ok [⟨⟨"self", ⟨1, 4⟩⟩, ⟨.Custom none ⟨"House", ⟨0, 5⟩⟩, ⟨0, 5⟩⟩, none, ⟨1, 4⟩⟩]
        ⟨⟨5, 1⟩, []⟩ :=
  ⟨c6_self_argument.1 0 [] ⟨1, 4⟩ ⟨0, 1⟩ [⟨.RightParen, ⟨5, 1⟩⟩],
   c6_self_argument.2.1 0 ⟨"House", ⟨0, 5⟩⟩
     [⟨⟨"xx", ⟨0, 2⟩⟩, ⟨.Field, ⟨0, 2⟩⟩, none, ⟨0, 2⟩⟩] ⟨1, 4⟩ ⟨0, 1⟩
     [⟨.RightParen, ⟨5, 1⟩⟩] (by simp),
   c6_self_argument.2.2.1 0 ⟨"House", ⟨0, 5⟩⟩ [] (.Keyword .Pub) ⟨1, 3⟩ ⟨5, 4⟩ ⟨0, 1⟩
     [⟨.RightParen, ⟨9, 1⟩⟩] (Or.inl rfl),
   c6_self_argument.2.2.2.2 ⟨"House", ⟨0, 5⟩⟩ ⟨0, 1⟩ ⟨1, 4⟩ ⟨5, 1⟩ ⟨0, 0⟩ []⟩

/-- Claim C7: `Function::parse` rejects a function whose brace-delimited
body contains zero statements: every successful parse has a non-empty body;
the concrete stream for `main() { }` (the signature parses and the body is
`{ }`) yields a recoverable error — not a `Function` value and not a panic;
and a function with one body statement, `main(xx: Field) { return xx; }`,
is not rejected. -/
theorem c7_nonempty_body :
    (∀ (st : State) (f : Function) (st' : State),
      Function.parse st = .ok f st' → f.body ≠ []) ∧
    Function.parse ⟨⟨0, 0⟩, [⟨.Identifier "main", ⟨0, 4⟩⟩, ⟨.LeftParen, ⟨4, 1⟩⟩,
        ⟨.RightParen, ⟨5, 1⟩⟩, ⟨.LeftCurlyBracket, ⟨7, 1⟩⟩,
        ⟨.RightCurlyBracket, ⟨9, 1⟩⟩]⟩ =
      .err (.InvalidFunctionSignature "expected function body") ⟨9, 1⟩ ∧
    (Function.parse ⟨⟨0, 0⟩, [⟨.Identifier "main", ⟨0, 4⟩⟩, ⟨.LeftParen, ⟨4, 1⟩⟩,
        ⟨.Identifier "xx", ⟨5, 2⟩⟩, ⟨.Colon, ⟨7, 1⟩⟩, ⟨.Identifier "Field", ⟨9, 5⟩⟩,
        ⟨.RightParen, ⟨14, 1⟩⟩, ⟨.LeftCurlyBracket, ⟨16, 1⟩⟩,
        ⟨.Keyword .Return, ⟨18, 6⟩⟩, ⟨.Identifier "xx", ⟨25, 2⟩⟩,
        ⟨.SemiColon, ⟨27, 1⟩⟩, ⟨.RightCurlyBracket, ⟨29, 1⟩⟩]⟩).isOk = true := by
  refine ⟨?_, by rfl, by rfl⟩
  intro st f st' h
  unfold Function.parse at h
  repeat' split at h
  any_goals simp at h
  rename_i x t heq
  obtain ⟨hf, -⟩ := h
  subst hf
  intro hnil
  dsimp only at hnil
  rw [hnil] at heq
  simp at heq

/-- Claim C7 witness: the non-empty-body consequence applied to the
concrete accepted function `main(xx: Field) { return xx; }`. -/
theorem c7_nonempty_body_witness :
    ∃ (f : Function) (st' : State),
      Function.parse ⟨⟨0, 0⟩, [⟨.Identifier "main", ⟨0, 4⟩⟩, ⟨.LeftParen, ⟨4, 1⟩⟩,
        ⟨.Identifier "xx", ⟨5, 2⟩⟩, ⟨.Colon, ⟨7, 1⟩⟩, ⟨.Identifier "Field", ⟨9, 5⟩⟩,
        ⟨.RightParen, ⟨14, 1⟩⟩, ⟨.LeftCurlyBracket, ⟨16, 1⟩⟩,
        ⟨.Keyword .Return, ⟨18, 6⟩⟩, ⟨.Identifier "xx", ⟨25, 2⟩⟩,
        ⟨.SemiColon, ⟨27, 1⟩⟩, ⟨.RightCurlyBracket, ⟨29, 1⟩⟩]⟩ = .ok f st' ∧
      f.body ≠ [] :=
  ⟨⟨⟨⟨none, ⟨"main", ⟨0, 4⟩⟩, ⟨0, 4⟩⟩,
      [⟨⟨"xx", ⟨5, 2⟩⟩, ⟨.Field, ⟨9, 5⟩⟩, none, ⟨5, 9⟩⟩], none⟩,
     [⟨.Return ⟨.Variable "xx", ⟨25, 2⟩⟩, ⟨18, 6⟩⟩], ⟨0, 24⟩⟩,
   ⟨⟨29, 1⟩, []⟩, rfl,
   c7_nonempty_body.1 ⟨⟨0, 0⟩, [⟨.Identifier "main", ⟨0, 4⟩⟩, ⟨.LeftParen, ⟨4, 1⟩⟩,
        ⟨.Identifier "xx", ⟨5, 2⟩⟩, ⟨.Colon, ⟨7, 1⟩⟩, ⟨.Identifier "Field", ⟨9, 5⟩⟩,
        ⟨.RightParen, ⟨14, 1⟩⟩, ⟨.LeftCurlyBracket, ⟨16, 1⟩⟩,
        ⟨.Keyword .Return, ⟨18, 6⟩⟩, ⟨.Identifier "xx", ⟨25, 2⟩⟩,
        ⟨.SemiColon, ⟨27, 1⟩⟩, ⟨.RightCurlyBracket, ⟨29, 1⟩⟩]⟩ _ ⟨⟨29, 1⟩, []⟩ rfl⟩

end Noname
